import Mathlib

/-!
Shallow embedding of the certificate-store client (api/store.go) of the
keyfactor-go-client repository: the property codec, the inventory decoder
and the pre-transport part of the store operations, together with proofs
about the claims of the specification.

Go values produced by encoding/json.Unmarshal into interface-typed
variables are modelled by the inductive type Jval below; Go maps are
modelled as association lists with Go assignment semantics (assignment
replaces the value of a present key and otherwise appends); the Go
map[string]bool sets of the inventory decoder are modelled as duplicate-free
key lists with insert-if-absent.  A Go run-time fault (a failed unchecked
type assertion) is modelled by the value none of an Option result.
-/

namespace KeyfactorStore

/-- Go JSON value domain: the shapes encoding/json.Unmarshal produces when
decoding into an interface-typed variable.  Numbers are carried as Int
(Go decodes to float64; no claim depends on the numeric value itself,
only on whether a value is a string or an object). -/
inductive Jval : Type where
  | null : Jval
  | bool : Bool → Jval
  | num : Int → Jval
  | str : String → Jval
  | arr : List Jval → Jval
  | obj : List (String × Jval) → Jval

/-- True exactly when the value is a JSON string. -/
def Jval.isStr : Jval → Bool
  | Jval.str _ => true
  | _ => false

/-- True exactly when the value is a JSON object. -/
def Jval.isObj : Jval → Bool
  | Jval.obj _ => true
  | _ => false

/-- Keys of an association list. -/
def keys {β : Type} (m : List (String × β)) : List String :=
  m.map Prod.fst

/-- Go map assignment m[k] = v on an association list: replace the value of
a present key, otherwise append the new pair. -/
def mapInsert {β : Type} (m : List (String × β)) (k : String) (v : β) :
    List (String × β) :=
  match m with
  | [] => [(k, v)]
  | (k0, v0) :: rest =>
      if k0 = k then (k0, v) :: rest else (k0, v0) :: mapInsert rest k v

/-- Go map[string]string, the flat property mapping handed to callers. -/
abbrev PropertyMap := List (String × String)

/-- Fate of the raw properties string under encoding/json.Unmarshal (the
parser is the Go standard library, external to this repository): the string
is empty; or it is nonempty and is not syntactically valid JSON; or it is
nonempty and parses to the JSON value given. -/
inductive ParsedInput : Type where
  | emptyStr : ParsedInput
  | parseError : ParsedInput
  | parsed : Jval → ParsedInput

/-- Entry loop of unmarshalPropertiesString (store.go lines 372-376): for
each key/value pair of the parsed object, newMap[key] = value.(string); the
unchecked assertion value.(string) faults (none) when the value is not a
JSON string. -/
def propsEntryLoop : List (String × Jval) → PropertyMap → Option PropertyMap
  | [], acc => some acc
  | (k, Jval.str s) :: rest, acc => propsEntryLoop rest (mapInsert acc k s)
  | (_, _) :: _, _ => none

/-- unmarshalPropertiesString (store.go lines 364-380): the empty string
gives an empty map; a JSON-syntax failure gives an empty map (the error is
swallowed at line 369); otherwise the unchecked assertion
tempInterface.(map[string]interface\x7b\x7d) faults (none) unless the value
is an object, and the entry loop runs over the object. -/
def unmarshalPropertiesString : ParsedInput → Option PropertyMap
  | ParsedInput.emptyStr => some []
  | ParsedInput.parseError => some []
  | ParsedInput.parsed (Jval.obj entries) => propsEntryLoop entries []
  | ParsedInput.parsed _ => none

/-- buildPropertiesInterface (store.go lines 412-424): for each key/value
pair of the property map, build the inner object with the single field
value, and assign it to the outer map under the same key. -/
def buildPropertiesInterface (properties : PropertyMap) : Jval :=
  Jval.obj (properties.foldl
    (fun acc p => mapInsert acc p.1 (Jval.obj [("value", Jval.str p.2)])) [])

/-- Escape of one character inside a rendered JSON string, modelling the
escaping of encoding/json for the quote and backslash characters (control
and HTML characters are also escaped by Go; no claim renders such input). -/
def escapeChar (c : Char) : String :=
  if c = '"' then "\\\"" else if c = '\\' then "\\\\" else c.toString

/-- Escape of a whole string inside a rendered JSON document. -/
def escapeString (s : String) : String :=
  String.join (s.data.map escapeChar)

/-- A rendered JSON string literal. -/
def quoteStr (s : String) : String :=
  "\"" ++ escapeString s ++ "\""

mutual

/-- Rendering of a JSON value, modelling encoding/json.Marshal on the
values produced in this development.  Object entries are rendered in
association-list order (Go sorts map keys; no claim depends on the entry
order of a rendered nonempty object). -/
def render : Jval → String
  | Jval.null => "null"
  | Jval.bool b => cond b "true" "false"
  | Jval.num n => toString n
  | Jval.str s => quoteStr s
  | Jval.arr l => "[" ++ renderList l ++ "]"
  | Jval.obj l => "\x7b" ++ renderObj l ++ "\x7d"

/-- Comma-separated rendering of array elements. -/
def renderList : List Jval → String
  | [] => ""
  | [v] => render v
  | v :: rest => render v ++ "," ++ renderList rest

/-- Comma-separated rendering of object entries. -/
def renderObj : List (String × Jval) → String
  | [] => ""
  | [(k, v)] => quoteStr k ++ ":" ++ render v
  | (k, v) :: rest => quoteStr k ++ ":" ++ render v ++ "," ++ renderObj rest

end

/-- string(json.Marshal(v)): the serialized form of a JSON value. -/
def jsonMarshal (v : Jval) : String :=
  render v

/-- Spec-side definition (read-side flat wire form of section 6 of the
spec): the JSON object mapping each property name of the map to its string
value. -/
def flatReadWireForm (m : PropertyMap) : Jval :=
  Jval.obj (m.map (fun p => (p.1, Jval.str p.2)))

/-- Typed certificate record, field for field the InventoriedCertificate
struct as read by the assertions of the inner loop of GetCertStoreInventory
(store.go lines 339-349). -/
structure InventoriedCertificate where
  Id : Int
  IssuedDN : String
  SerialNumber : String
  NotBefore : String
  NotAfter : String
  SigningAlgorithm : String
  IssuerDN : String
  Thumbprint : String
  CertStoreInventoryItemId : Int
deriving DecidableEq, Inhabited, Repr

/-- The CertStoreInventory record built by GetCertStoreInventory.  The Go
fields Thumbprints, Serials and Ids have type map[string]bool, map[string]bool
and map[int]bool and are used as sets (every stored value is true); they are
modelled as duplicate-free key lists. -/
structure CertStoreInventory where
  Name : String
  CertStoreInventoryItemId : Int
  Certificates : List InventoriedCertificate
  Parameters : List (String × Jval)
  Thumbprints : List String
  Serials : List String
  Ids : List Int
deriving Inhabited

/-- One element of the parsed inventory payload, as read by the type
assertions of GetCertStoreInventory (store.go lines 324-338): Name a
string, CertStoreInventoryItemId a number, Certificates an array of
certificate objects whose assertions all succeed; Parameters already
carries the defaulted value of lines 325-328 (the parameter object when
present and of object shape, the empty map otherwise). -/
structure InventorySlot where
  Name : String
  CertStoreInventoryItemId : Int
  Parameters : List (String × Jval)
  Certificates : List InventoriedCertificate

/-- Go set insertion m[x] = true on a map[...]bool used as a set: a present
key is left alone, an absent key is appended. -/
def setInsert {α : Type} [DecidableEq α] (s : List α) (x : α) : List α :=
  if x ∈ s then s else s ++ [x]

/-- State of the inner certificate loop of GetCertStoreInventory
(store.go lines 338-355): the certificate slice of invC, the contents of
the three maps of invC, and one snapshot per append of invC to invResp.
Go copies the struct invC at each append: the copy keeps the slice header
of Certificates as it is at that moment (the first i certificates), while
the three maps are shared by reference, so every copy observes the final
map contents once the function returns. -/
structure CertLoopState where
  certificates : List InventoriedCertificate
  thumbprints : List String
  serials : List String
  ids : List Int
  snapshots : List (List InventoriedCertificate)

/-- One iteration of the inner certificate loop: append the certificate to
invC.Certificates, insert its thumbprint, serial number and id into the
three shared maps, and append a copy of invC to invResp (recorded as the
snapshot of the certificate slice at this moment). -/
def certLoopStep (st : CertLoopState) (cert : InventoriedCertificate) :
    CertLoopState :=
  let certs := st.certificates ++ [cert]
  { certificates := certs
    thumbprints := setInsert st.thumbprints cert.Thumbprint
    serials := setInsert st.serials cert.SerialNumber
    ids := setInsert st.ids cert.Id
    snapshots := st.snapshots ++ [certs] }

/-- The whole inner certificate loop of one payload slot, started from the
fresh invC of store.go lines 329-337 (empty certificate slice, three fresh
empty maps, nothing appended yet). -/
def certLoop (certs : List InventoriedCertificate) : CertLoopState :=
  certs.foldl certLoopStep
    { certificates := [], thumbprints := [], serials := [], ids := [],
      snapshots := [] }

/-- The CertStoreInventory entries one payload slot contributes to invResp,
as the caller observes them when GetCertStoreInventory returns: one entry
per certificate of the slot, the i-th carrying the snapshot of the
certificate slice (the first i certificates) and the final contents of the
three shared maps. -/
def slotItems (s : InventorySlot) : List CertStoreInventory :=
  let st := certLoop s.Certificates
  st.snapshots.map (fun snap =>
    { Name := s.Name
      CertStoreInventoryItemId := s.CertStoreInventoryItemId
      Certificates := snap
      Parameters := s.Parameters
      Thumbprints := st.thumbprints
      Serials := st.serials
      Ids := st.ids })

/-- invResp as built by GetCertStoreInventory (store.go lines 318-357) over
the parsed payload: the outer loop runs the inner loop of every slot,
appending to one shared invResp (the branch for an empty payload returns
the empty list, which the fold also gives). -/
def GetCertStoreInventory (payload : List InventorySlot) :
    List CertStoreInventory :=
  payload.foldl (fun acc s => acc ++ slotItems s) []

/-- A Keyfactor StringTuple, a pair of strings (used for header names and
values in store.go). -/
abbrev StringTuple := String × String

/-- The two Keyfactor-specific headers set by every operation of store.go. -/
def keyfactorHeaders : List StringTuple :=
  [("x-keyfactor-api-version", "1"), ("x-keyfactor-requested-with", "APIClient")]

/-- The request record handed to sendRequest: method, endpoint and headers
(the payload, when present, is carried separately by the operations that
send one). -/
structure request where
  Method : String
  Endpoint : String
  Headers : List StringTuple

/-- Argument record of CreateStore; the fields are the ones store.go reads
(ClientMachine, StorePath, AgentId in validation, Properties and
PropertiesString in the property-string construction). -/
structure CreateStoreFctArgs where
  ClientMachine : String
  StorePath : String
  AgentId : String
  Properties : PropertyMap
  PropertiesString : String

/-- Argument record of UpdateStore, same fields as read by store.go. -/
structure UpdateStoreFctArgs where
  ClientMachine : String
  StorePath : String
  AgentId : String
  Properties : PropertyMap
  PropertiesString : String

/-- validateCreateStoreArgs (store.go lines 382-394): the first empty
required field yields its error message, otherwise no error.  Option is the
Go error: some is a non-nil error, none is nil. -/
def validateCreateStoreArgs (ca : CreateStoreFctArgs) : Option String :=
  if ca.ClientMachine = "" then
    some "client machine is required for creation of new certificate store"
  else if ca.StorePath = "" then
    some "store path is required for creation of new certificate store"
  else if ca.AgentId = "" then
    some "orchestrator agent id is required for creation of new certificate store"
  else none

/-- validateUpdateStoreArgs (store.go lines 396-408): identical checks and
messages as the create-side validation. -/
def validateUpdateStoreArgs (ca : UpdateStoreFctArgs) : Option String :=
  if ca.ClientMachine = "" then
    some "client machine is required for creation of new certificate store"
  else if ca.StorePath = "" then
    some "store path is required for creation of new certificate store"
  else if ca.AgentId = "" then
    some "orchestrator agent id is required for creation of new certificate store"
  else none

/-- CreateStore (store.go lines 19-54) up to the transport boundary: a
validation failure is returned at line 25, before sendRequest is ever
reached; otherwise PropertiesString is filled from the property map when it
is empty (lines 30-37) and the request of lines 47-52 together with the
updated argument record (the payload) is handed to sendRequest at line 54.
An error result therefore means the transport collaborator is never
invoked. -/
def CreateStore (ca : CreateStoreFctArgs) :
    Except String (request × CreateStoreFctArgs) :=
  match validateCreateStoreArgs ca with
  | some e => Except.error e
  | none =>
      let ca2 :=
        if ca.PropertiesString = "" then
          { ca with PropertiesString :=
              jsonMarshal (buildPropertiesInterface ca.Properties) }
        else ca
      Except.ok
        ({ Method := "POST", Endpoint := "CertificateStores",
           Headers := keyfactorHeaders }, ca2)

/-- UpdateStore (store.go lines 75-110) up to the transport boundary,
mirror of CreateStore with method Put. -/
def UpdateStore (ua : UpdateStoreFctArgs) :
    Except String (request × UpdateStoreFctArgs) :=
  match validateUpdateStoreArgs ua with
  | some e => Except.error e
  | none =>
      let ua2 :=
        if ua.PropertiesString = "" then
          { ua with PropertiesString :=
              jsonMarshal (buildPropertiesInterface ua.Properties) }
        else ua
      Except.ok
        ({ Method := "Put", Endpoint := "CertificateStores",
           Headers := keyfactorHeaders }, ua2)

/-- The Go net/http constant StatusNoContent. -/
def StatusNoContent : Nat := 204

/-- The request built by DeleteCertificateStore (store.go lines 126-140). -/
def deleteRequest (storeId : String) : request :=
  { Method := "DELETE", Endpoint := "CertificateStores/" ++ storeId,
    Headers := keyfactorHeaders }

/-- DeleteCertificateStore (store.go lines 142-151) after the transport
call succeeded with the given status code: any status other than 204 No
Content yields the formatted error of line 148 carrying the method, the
endpoint and the status code; a 204 yields nil (none). -/
def DeleteCertificateStore (storeId : String) (statusCode : Nat) :
    Option String :=
  let keyfactorAPIStruct := deleteRequest storeId
  if statusCode ≠ StatusNoContent then
    some ("[ERROR] Something unexpected happened, "
      ++ keyfactorAPIStruct.Method ++ " call to "
      ++ keyfactorAPIStruct.Endpoint ++ " returned status "
      ++ toString statusCode)
  else none

/-- String inclusion stated on the underlying character lists: sub occurs
contiguously inside s. -/
def strIncludes (s sub : String) : Prop :=
  ∃ l r : List Char, s.data = l ++ sub.data ++ r

/-- Concrete certificate used by the concrete evaluations below. -/
def exCertA : InventoriedCertificate :=
  { Id := 1, IssuedDN := "dnA", SerialNumber := "serA", NotBefore := "nb",
    NotAfter := "na", SigningAlgorithm := "alg", IssuerDN := "iss",
    Thumbprint := "thA", CertStoreInventoryItemId := 7 }

/-- Second concrete certificate, with distinct thumbprint, serial and id. -/
def exCertB : InventoriedCertificate :=
  { Id := 2, IssuedDN := "dnB", SerialNumber := "serB", NotBefore := "nb",
    NotAfter := "na", SigningAlgorithm := "alg", IssuerDN := "iss",
    Thumbprint := "thB", CertStoreInventoryItemId := 7 }

/-- Concrete payload slot holding exactly one certificate. -/
def exSlot1 : InventorySlot :=
  { Name := "slot1", CertStoreInventoryItemId := 3, Parameters := [],
    Certificates := [exCertA] }

/-- Concrete payload slot holding two certificates. -/
def exSlot2 : InventorySlot :=
  { Name := "slot2", CertStoreInventoryItemId := 7, Parameters := [],
    Certificates := [exCertA, exCertB] }

/-- Concrete payload slot holding no certificate at all. -/
def exSlotEmpty : InventorySlot :=
  { Name := "empty", CertStoreInventoryItemId := 9, Parameters := [],
    Certificates := [] }

/-- The single entry GetCertStoreInventory produces for exSlot1. -/
def exItem1 : CertStoreInventory :=
  { Name := "slot1", CertStoreInventoryItemId := 3,
    Certificates := [exCertA], Parameters := [],
    Thumbprints := ["thA"], Serials := ["serA"], Ids := [1] }

theorem mapInsert_not_mem {β : Type} (m : List (String × β)) (k : String)
    (v : β) (h : k ∉ keys m) : mapInsert m k v = m ++ [(k, v)] := by
  induction m with
  | nil => rfl
  | cons p m ih =>
      obtain ⟨k0, v0⟩ := p
      have h1 : k0 ≠ k := by
        intro e
        exact h (by simp [keys, e])
      have h2 : k ∉ keys m := by
        intro e
        exact h (by simp [keys]; exact Or.inr (by simpa [keys] using e))
      simp [mapInsert, h1, ih h2]

theorem foldl_mapInsert_append {α β : Type} (v : α → β)
    (m : List (String × α)) :
    ∀ acc : List (String × β),
      (keys m).Nodup → (∀ k, k ∈ keys m → k ∉ keys acc) →
      m.foldl (fun a p => mapInsert a p.1 (v p.2)) acc
        = acc ++ m.map (fun p => (p.1, v p.2)) := by
  induction m with
  | nil => intro acc _ _; simp
  | cons p m ih =>
      intro acc hnd hdisj
      have hkeys : keys (p :: m) = p.1 :: keys m := rfl
      rw [hkeys] at hnd
      have hnd1 : p.1 ∉ keys m := (List.nodup_cons.mp hnd).1
      have hnd2 : (keys m).Nodup := (List.nodup_cons.mp hnd).2
      have hp : p.1 ∉ keys acc := hdisj p.1 (by simp [keys])
      rw [List.foldl_cons, mapInsert_not_mem acc p.1 (v p.2) hp,
        ih (acc ++ [(p.1, v p.2)]) hnd2 ?_]
      · simp
      · intro k hk
        have hk1 : k ≠ p.1 := by
          intro e
          exact hnd1 (e ▸ hk)
        have hk2 : k ∉ keys acc := hdisj k (by simp [keys]; right; simpa [keys] using hk)
        simp [keys] at hk2 ⊢
        exact ⟨hk2, hk1⟩

theorem propsEntryLoop_str (m : PropertyMap) :
    ∀ acc : PropertyMap,
      propsEntryLoop (m.map (fun p => (p.1, Jval.str p.2))) acc
        = some (m.foldl (fun a p => mapInsert a p.1 p.2) acc) := by
  induction m with
  | nil => intro acc; rfl
  | cons p m ih =>
      intro acc
      obtain ⟨k, s⟩ := p
      simpa [propsEntryLoop] using ih (mapInsert acc k s)

theorem propsEntryLoop_none (entries : List (String × Jval)) :
    ∀ acc : PropertyMap,
      (∃ p ∈ entries, p.2.isStr = false) →
      propsEntryLoop entries acc = none := by
  induction entries with
  | nil => intro acc h; obtain ⟨p, hp, _⟩ := h; exact absurd hp (by simp)
  | cons q rest ih =>
      intro acc h
      obtain ⟨k, v⟩ := q
      cases v with
      | str s =>
          obtain ⟨p, hp, hns⟩ := h
          rcases List.mem_cons.mp hp with he | hm
          · rw [he] at hns
            simp [Jval.isStr] at hns
          · have h2 := ih (mapInsert acc k s) ⟨p, hm, hns⟩
            simpa [propsEntryLoop] using h2
      | null => rfl
      | bool b => rfl
      | num n => rfl
      | arr l => rfl
      | obj l => rfl

theorem mem_setInsert {α : Type} [DecidableEq α] (s : List α) (x y : α) :
    y ∈ setInsert s x ↔ y ∈ s ∨ y = x := by
  by_cases hx : x ∈ s <;> simp [setInsert, hx]
  rintro rfl
  exact hx

theorem mem_foldl_setInsert {α β : Type} [DecidableEq β] (f : α → β)
    (l : List α) :
    ∀ (s : List β) (x : β),
      x ∈ l.foldl (fun acc c => setInsert acc (f c)) s
        ↔ x ∈ s ∨ x ∈ l.map f := by
  induction l with
  | nil => intro s x; simp
  | cons c l ih =>
      intro s x
      rw [List.foldl_cons, ih (setInsert s (f c)) x, mem_setInsert]
      simp
      tauto

theorem certLoop_foldl_spec (l : List InventoriedCertificate) :
    ∀ st : CertLoopState,
      (List.foldl certLoopStep st l).certificates = st.certificates ++ l
      ∧ (List.foldl certLoopStep st l).snapshots
          = st.snapshots
            ++ (List.range l.length).map
                 (fun i => st.certificates ++ l.take (i + 1))
      ∧ (List.foldl certLoopStep st l).thumbprints
          = l.foldl (fun acc c => setInsert acc c.Thumbprint) st.thumbprints
      ∧ (List.foldl certLoopStep st l).serials
          = l.foldl (fun acc c => setInsert acc c.SerialNumber) st.serials
      ∧ (List.foldl certLoopStep st l).ids
          = l.foldl (fun acc c => setInsert acc c.Id) st.ids := by
  induction l with
  | nil => intro st; simp
  | cons c l ih =>
      intro st
      obtain ⟨h1, h2, h3, h4, h5⟩ := ih (certLoopStep st c)
      refine ⟨?_, ?_, ?_, ?_, ?_⟩
      · rw [List.foldl_cons, h1]
        simp [certLoopStep]
      · rw [List.foldl_cons, h2]
        simp [certLoopStep, List.range_succ_eq_map, List.map_map,
          Function.comp, List.take_succ_cons, List.append_assoc]
      · rw [List.foldl_cons, h3]
        simp [certLoopStep]
      · rw [List.foldl_cons, h4]
        simp [certLoopStep]
      · rw [List.foldl_cons, h5]
        simp [certLoopStep]

theorem certLoop_snapshots (l : List InventoriedCertificate) :
    (certLoop l).snapshots
      = (List.range l.length).map (fun i => l.take (i + 1)) := by
  have h := (certLoop_foldl_spec l
    { certificates := [], thumbprints := [], serials := [], ids := [],
      snapshots := [] }).2.1
  simpa [certLoop] using h

theorem mem_certLoop_thumbprints (l : List InventoriedCertificate)
    (x : String) :
    x ∈ (certLoop l).thumbprints ↔ x ∈ l.map (fun c => c.Thumbprint) := by
  have h := (certLoop_foldl_spec l
    { certificates := [], thumbprints := [], serials := [], ids := [],
      snapshots := [] }).2.2.1
  rw [certLoop, h]
  simpa using mem_foldl_setInsert (fun c => c.Thumbprint) l [] x

theorem mem_certLoop_serials (l : List InventoriedCertificate) (x : String) :
    x ∈ (certLoop l).serials ↔ x ∈ l.map (fun c => c.SerialNumber) := by
  have h := (certLoop_foldl_spec l
    { certificates := [], thumbprints := [], serials := [], ids := [],
      snapshots := [] }).2.2.2.1
  rw [certLoop, h]
  simpa using mem_foldl_setInsert (fun c => c.SerialNumber) l [] x

theorem mem_certLoop_ids (l : List InventoriedCertificate) (x : Int) :
    x ∈ (certLoop l).ids ↔ x ∈ l.map (fun c => c.Id) := by
  have h := (certLoop_foldl_spec l
    { certificates := [], thumbprints := [], serials := [], ids := [],
      snapshots := [] }).2.2.2.2
  rw [certLoop, h]
  simpa using mem_foldl_setInsert (fun c => c.Id) l [] x

theorem slotItems_length (s : InventorySlot) :
    (slotItems s).length = s.Certificates.length := by
  simp [slotItems, certLoop_snapshots]

theorem slotItems_map_certificates (s : InventorySlot) :
    (slotItems s).map (fun it => it.Certificates)
      = (List.range s.Certificates.length).map
          (fun i => s.Certificates.take (i + 1)) := by
  simp [slotItems, certLoop_snapshots, List.map_map, Function.comp]

theorem slotItems_sets (s : InventorySlot) (it : CertStoreInventory)
    (h : it ∈ slotItems s) :
    (∀ x, x ∈ it.Thumbprints
        ↔ x ∈ s.Certificates.map (fun c => c.Thumbprint))
    ∧ (∀ x, x ∈ it.Serials
        ↔ x ∈ s.Certificates.map (fun c => c.SerialNumber))
    ∧ (∀ x, x ∈ it.Ids ↔ x ∈ s.Certificates.map (fun c => c.Id)) := by
  simp only [slotItems, List.mem_map] at h
  obtain ⟨snap, hsnap, rfl⟩ := h
  refine ⟨?_, ?_, ?_⟩
  · intro x
    simpa using mem_certLoop_thumbprints s.Certificates x
  · intro x
    simpa using mem_certLoop_serials s.Certificates x
  · intro x
    simpa using mem_certLoop_ids s.Certificates x

theorem foldl_append_join {α β : Type} (f : α → List β) (l : List α) :
    ∀ acc : List β,
      l.foldl (fun acc s => acc ++ f s) acc = acc ++ (l.map f).flatten := by
  induction l with
  | nil => intro acc; simp
  | cons s l ih =>
      intro acc
      rw [List.foldl_cons, ih (acc ++ f s)]
      simp

theorem GetCertStoreInventory_eq_join (payload : List InventorySlot) :
    GetCertStoreInventory payload = (payload.map slotItems).flatten := by
  simpa [GetCertStoreInventory] using
    foldl_append_join slotItems payload []

theorem slotItems_nil_certs (s : InventorySlot)
    (h : s.Certificates = []) : slotItems s = [] := by
  simp [slotItems, certLoop_snapshots, h]

/-- Claim C1, counterexample: on a single slot holding the two certificates
exCertA and exCertB, GetCertStoreInventory emits two entries, but the first
entry carries only the first certificate, not the full certificate list of
the slot, so the claim as stated is false. -/
theorem claimC1_counterexample :
    (GetCertStoreInventory [exSlot2]).length = 2
    ∧ (GetCertStoreInventory [exSlot2]).headI.Certificates = [exCertA]
    ∧ exSlot2.Certificates = [exCertA, exCertB]
    ∧ [exCertA] ≠ [exCertA, exCertB] := by
  refine ⟨by decide, by decide, by decide, by decide⟩

/-- Claim C1 (amended): for every slot holding n ≥ 1 certificates,
GetCertStoreInventory appends one top-level entry per certificate, so the
output contains n entries for that slot; the i-th entry carries the first
i certificates of the slot (only the last entry carries the full list);
in particular a payload with a single slot holding exactly one certificate
yields exactly one entry whose thumbprint, serial-number and id sets each
contain exactly the corresponding field of that certificate. -/
theorem claimC1 (s : InventorySlot) (h : 1 ≤ s.Certificates.length) :
    (slotItems s).length = s.Certificates.length
    ∧ (slotItems s).map (fun it => it.Certificates)
        = (List.range s.Certificates.length).map
            (fun i => s.Certificates.take (i + 1))
    ∧ ∀ c, s.Certificates = [c] →
        GetCertStoreInventory [s]
          = [{ Name := s.Name,
               CertStoreInventoryItemId := s.CertStoreInventoryItemId,
               Certificates := [c], Parameters := s.Parameters,
               Thumbprints := [c.Thumbprint], Serials := [c.SerialNumber],
               Ids := [c.Id] }] := by
  refine ⟨slotItems_length s, slotItems_map_certificates s, ?_⟩
  intro c hc
  obtain ⟨n, i, p, certs⟩ := s
  simp only at hc
  subst hc
  simp [GetCertStoreInventory, slotItems, certLoop, certLoopStep, setInsert]

/-- Witness for claim C1 at the concrete single-certificate slot. -/
theorem claimC1_witness :
    GetCertStoreInventory [exSlot1]
      = [{ Name := "slot1", CertStoreInventoryItemId := 3,
           Certificates := [exCertA], Parameters := [],
           Thumbprints := ["thA"], Serials := ["serA"], Ids := [1] }] := by
  have h := (claimC1 exSlot1 (by decide)).2.2 exCertA rfl
  simpa [exSlot1, exCertA] using h

/-- Claim C2, counterexample: on a single slot holding two certificates
with distinct thumbprints, the first returned entry has the full thumbprint
set of the slot (the three maps are shared between the per-certificate
copies) but only the first certificate in its list, so its set is not the
projection of its own certificate list and the claim as stated is false. -/
theorem claimC2_counterexample :
    (GetCertStoreInventory [exSlot2]).headI.Thumbprints = ["thA", "thB"]
    ∧ (GetCertStoreInventory [exSlot2]).headI.Certificates.map
        (fun c => c.Thumbprint) = ["thA"]
    ∧ ("thB" ∈ (["thA", "thB"] : List String))
    ∧ "thB" ∉ (["thA"] : List String) := by
  refine ⟨by decide, by decide, by decide, by decide⟩

/-- Claim C2 (amended): GetCertStoreInventory is the concatenation of the
per-slot entry lists, and for every entry of a slot the three derived sets
(Thumbprints, Serials, Ids) contain exactly the projections of the full
certificate list of that slot; they match the projections of the entry
itself only for the last entry of the slot, whose certificate list is the
full list. -/
theorem claimC2 :
    (∀ payload : List InventorySlot,
      GetCertStoreInventory payload = (payload.map slotItems).flatten)
    ∧ ∀ (s : InventorySlot) (it : CertStoreInventory), it ∈ slotItems s →
        (∀ x, x ∈ it.Thumbprints
            ↔ x ∈ s.Certificates.map (fun c => c.Thumbprint))
        ∧ (∀ x, x ∈ it.Serials
            ↔ x ∈ s.Certificates.map (fun c => c.SerialNumber))
        ∧ (∀ x, x ∈ it.Ids ↔ x ∈ s.Certificates.map (fun c => c.Id)) :=
  ⟨GetCertStoreInventory_eq_join, slotItems_sets⟩

/-- Witness for claim C2 at the concrete single-certificate slot. -/
theorem claimC2_witness :
    ("thA" ∈ exItem1.Thumbprints)
    ↔ "thA" ∈ exSlot1.Certificates.map (fun c => c.Thumbprint) := by
  refine (claimC2.2 exSlot1 exItem1 ?_).1 "thA"
  have h : slotItems exSlot1 = [exItem1] := rfl
  rw [h]
  exact List.mem_singleton.mpr rfl

/-- Claim C3: decoding the read-side flat wire form of a non-empty property
map (the JSON object mapping each property name to its string value) yields
exactly that map. -/
theorem claimC3 (m : PropertyMap) (_hne : m ≠ []) (hnd : (keys m).Nodup) :
    unmarshalPropertiesString (ParsedInput.parsed (flatReadWireForm m))
      = some m := by
  show propsEntryLoop (m.map (fun p => (p.1, Jval.str p.2))) [] = some m
  rw [propsEntryLoop_str m []]
  congr 1
  have h := foldl_mapInsert_append (fun s : String => s) m [] hnd
    (by intro k _ hk; simp [keys] at hk)
  simpa using h

/-- Witness for claim C3 at a concrete two-entry property map. -/
theorem claimC3_witness :
    unmarshalPropertiesString
      (ParsedInput.parsed (flatReadWireForm [("a", "1"), ("b", "2")]))
      = some [("a", "1"), ("b", "2")] :=
  claimC3 [("a", "1"), ("b", "2")] (by decide) (by decide)

/-- Claim C4: unmarshalPropertiesString returns the empty property map for
the empty input string and also for every input string that fails JSON
parsing; neither case surfaces an error. -/
theorem claimC4 :
    unmarshalPropertiesString ParsedInput.emptyStr = some []
    ∧ unmarshalPropertiesString ParsedInput.parseError = some [] :=
  ⟨rfl, rfl⟩

/-- Claim C5: decoding an input that parses as a JSON object in which some
value is not a JSON string faults (the unchecked assertion value.(string)
fails), so the decode never returns a property map. -/
theorem claimC5 (entries : List (String × Jval))
    (h : ∃ p ∈ entries, p.2.isStr = false) :
    unmarshalPropertiesString (ParsedInput.parsed (Jval.obj entries))
      = none :=
  propsEntryLoop_none entries [] h

/-- Witness for claim C5 at a concrete object with a numeric value. -/
theorem claimC5_witness :
    unmarshalPropertiesString
      (ParsedInput.parsed (Jval.obj [("a", Jval.num 1)])) = none :=
  claimC5 [("a", Jval.num 1)] ⟨("a", Jval.num 1), by simp, rfl⟩

/-- Claim C6: the write-side encoding maps each property name to the nested
single-field object with field value holding the string value, and the
empty property map serializes exactly to the two-character object string. -/
theorem claimC6 (m : PropertyMap) (hnd : (keys m).Nodup) :
    buildPropertiesInterface m
      = Jval.obj (m.map
          (fun p => (p.1, Jval.obj [("value", Jval.str p.2)])))
    ∧ jsonMarshal (buildPropertiesInterface []) = "\x7b\x7d" := by
  constructor
  · rw [buildPropertiesInterface]
    congr 1
    have h := foldl_mapInsert_append
      (fun s : String => Jval.obj [("value", Jval.str s)]) m [] hnd
      (by intro k _ hk; simp [keys] at hk)
    simpa using h
  · decide

/-- Witness for claim C6 at a concrete one-entry property map. -/
theorem claimC6_witness :
    buildPropertiesInterface [("a", "1")]
      = Jval.obj [("a", Jval.obj [("value", Jval.str "1")])]
    ∧ jsonMarshal (buildPropertiesInterface []) = "\x7b\x7d" :=
  claimC6 [("a", "1")] (by decide)

/-- Claim C7: a create or update argument record with an empty client
machine, store path or orchestrator agent id makes the operation return the
error of the first missing field before the request is built, so the
transport collaborator is never invoked; the three messages are pairwise
distinct and field-specific. -/
theorem claimC7 (ca : CreateStoreFctArgs) (ua : UpdateStoreFctArgs) :
    (ca.ClientMachine = "" →
      CreateStore ca = Except.error
        "client machine is required for creation of new certificate store")
    ∧ (ca.ClientMachine ≠ "" → ca.StorePath = "" →
      CreateStore ca = Except.error
        "store path is required for creation of new certificate store")
    ∧ (ca.ClientMachine ≠ "" → ca.StorePath ≠ "" → ca.AgentId = "" →
      CreateStore ca = Except.error
        "orchestrator agent id is required for creation of new certificate store")
    ∧ (ua.ClientMachine = "" →
      UpdateStore ua = Except.error
        "client machine is required for creation of new certificate store")
    ∧ (ua.ClientMachine ≠ "" → ua.StorePath = "" →
      UpdateStore ua = Except.error
        "store path is required for creation of new certificate store")
    ∧ (ua.ClientMachine ≠ "" → ua.StorePath ≠ "" → ua.AgentId = "" →
      UpdateStore ua = Except.error
        "orchestrator agent id is required for creation of new certificate store")
    ∧ ("client machine is required for creation of new certificate store"
        ≠ "store path is required for creation of new certificate store")
    ∧ ("client machine is required for creation of new certificate store"
        ≠ "orchestrator agent id is required for creation of new certificate store")
    ∧ ("store path is required for creation of new certificate store"
        ≠ "orchestrator agent id is required for creation of new certificate store") := by
  refine ⟨?_, ?_, ?_, ?_, ?_, ?_, by decide, by decide, by decide⟩
  · intro h1
    simp [CreateStore, validateCreateStoreArgs, h1]
  · intro h1 h2
    simp [CreateStore, validateCreateStoreArgs, h1, h2]
  · intro h1 h2 h3
    simp [CreateStore, validateCreateStoreArgs, h1, h2, h3]
  · intro h1
    simp [UpdateStore, validateUpdateStoreArgs, h1]
  · intro h1 h2
    simp [UpdateStore, validateUpdateStoreArgs, h1, h2]
  · intro h1 h2 h3
    simp [UpdateStore, validateUpdateStoreArgs, h1, h2, h3]

/-- Witness for claim C7: three concrete argument records, each missing a
different required field. -/
theorem claimC7_witness :
    CreateStore { ClientMachine := "", StorePath := "p", AgentId := "a",
                  Properties := [], PropertiesString := "" }
      = Except.error
          "client machine is required for creation of new certificate store"
    ∧ CreateStore { ClientMachine := "m", StorePath := "", AgentId := "a",
                    Properties := [], PropertiesString := "" }
      = Except.error
          "store path is required for creation of new certificate store"
    ∧ UpdateStore { ClientMachine := "m", StorePath := "p", AgentId := "",
                    Properties := [], PropertiesString := "" }
      = Except.error
          "orchestrator agent id is required for creation of new certificate store" := by
  refine ⟨?_, ?_, ?_⟩
  · exact (claimC7 { ClientMachine := "", StorePath := "p", AgentId := "a",
                     Properties := [], PropertiesString := "" }
      { ClientMachine := "m", StorePath := "p", AgentId := "a",
        Properties := [], PropertiesString := "" }).1 rfl
  · exact (claimC7 { ClientMachine := "m", StorePath := "", AgentId := "a",
                     Properties := [], PropertiesString := "" }
      { ClientMachine := "m", StorePath := "p", AgentId := "a",
        Properties := [], PropertiesString := "" }).2.1 (by decide) rfl
  · exact (claimC7 { ClientMachine := "m", StorePath := "p", AgentId := "a",
                     Properties := [], PropertiesString := "" }
      { ClientMachine := "m", StorePath := "p", AgentId := "",
        Properties := [], PropertiesString := "" }).2.2.2.2.2.1
      (by decide) (by decide) rfl

/-- Claim C8: after a transport response whose status code is not 204 No
Content, DeleteCertificateStore returns an error whose message includes the
request method, the endpoint and the received status code; a 204 response
returns no error. -/
theorem claimC8 (storeId : String) (status : Nat) :
    (status ≠ 204 →
      DeleteCertificateStore storeId status
          = some ("[ERROR] Something unexpected happened, "
              ++ "DELETE" ++ " call to "
              ++ ("CertificateStores/" ++ storeId) ++ " returned status "
              ++ toString status)
        ∧ strIncludes ("[ERROR] Something unexpected happened, "
              ++ "DELETE" ++ " call to "
              ++ ("CertificateStores/" ++ storeId) ++ " returned status "
              ++ toString status) "DELETE"
        ∧ strIncludes ("[ERROR] Something unexpected happened, "
              ++ "DELETE" ++ " call to "
              ++ ("CertificateStores/" ++ storeId) ++ " returned status "
              ++ toString status) ("CertificateStores/" ++ storeId)
        ∧ strIncludes ("[ERROR] Something unexpected happened, "
              ++ "DELETE" ++ " call to "
              ++ ("CertificateStores/" ++ storeId) ++ " returned status "
              ++ toString status) (toString status))
    ∧ (status = 204 → DeleteCertificateStore storeId status = none) := by
  constructor
  · intro h
    refine ⟨?_, ?_, ?_, ?_⟩
    · simp [DeleteCertificateStore, deleteRequest, StatusNoContent, h,
        String.append_assoc]
    · exact ⟨"[ERROR] Something unexpected happened, ".data,
        (" call to " ++ ("CertificateStores/" ++ storeId)
          ++ " returned status " ++ toString status).data,
        by simp [String.data_append, List.append_assoc]⟩
    · exact ⟨("[ERROR] Something unexpected happened, " ++ "DELETE"
          ++ " call to ").data,
        (" returned status " ++ toString status).data,
        by simp [String.data_append, List.append_assoc]⟩
    · exact ⟨("[ERROR] Something unexpected happened, " ++ "DELETE"
          ++ " call to " ++ ("CertificateStores/" ++ storeId)
          ++ " returned status ").data,
        ([] : List Char),
        by simp [String.data_append, List.append_assoc]⟩
  · intro h
    simp [DeleteCertificateStore, deleteRequest, StatusNoContent, h]

/-- Witness for claim C8 at a concrete store id with status 500 and with
status 204. -/
theorem claimC8_witness :
    DeleteCertificateStore "abc" 500
      = some ("[ERROR] Something unexpected happened, "
          ++ "DELETE" ++ " call to " ++ ("CertificateStores/" ++ "abc")
          ++ " returned status " ++ toString 500)
    ∧ DeleteCertificateStore "abc" 204 = none :=
  ⟨((claimC8 "abc" 500).1 (by decide)).1, (claimC8 "abc" 204).2 rfl⟩

/-- Claim C9: a payload slot whose certificate array is empty contributes
no entry at all to the result of GetCertStoreInventory; the slot is
silently dropped because entries are appended only inside the
per-certificate loop. -/
theorem claimC9 (pre post : List InventorySlot) (s : InventorySlot)
    (h : s.Certificates = []) :
    GetCertStoreInventory (pre ++ s :: post)
      = GetCertStoreInventory (pre ++ post) := by
  rw [GetCertStoreInventory_eq_join, GetCertStoreInventory_eq_join]
  simp [slotItems_nil_certs s h]

/-- Witness for claim C9: appending a certificate-free slot to a payload
leaves the decoded inventory unchanged. -/
theorem claimC9_witness :
    GetCertStoreInventory [exSlot1, exSlotEmpty]
      = GetCertStoreInventory [exSlot1] :=
  claimC9 [exSlot1] [] exSlotEmpty rfl

/-- Claim C10: a nonempty input that parses as syntactically valid JSON of
non-object shape makes unmarshalPropertiesString fault on the unchecked
object assertion (neither a property map nor an error is returned), while
the empty-map leniency applies to syntactically malformed input. -/
theorem claimC10 (v : Jval) (h : v.isObj = false) :
    unmarshalPropertiesString (ParsedInput.parsed v) = none
    ∧ unmarshalPropertiesString ParsedInput.parseError = some [] := by
  refine ⟨?_, rfl⟩
  cases v with
  | obj l => simp [Jval.isObj] at h
  | null => rfl
  | bool b => rfl
  | num n => rfl
  | str s => rfl
  | arr l => rfl

/-- Witness for claim C10 at a concrete JSON array input. -/
theorem claimC10_witness :
    unmarshalPropertiesString (ParsedInput.parsed (Jval.arr [])) = none
    ∧ unmarshalPropertiesString ParsedInput.parseError = some [] :=
  claimC10 (Jval.arr []) rfl

end KeyfactorStore
